import Mathlib

/-!
Shallow embedding of `convert_yolov8_to_coreml.py` (Bat-Sight repository).

The script is interactive glue around an external library: it reads menu
choices from standard input, optionally runs `pip install`, loads a model,
calls `model.export(...)` with fixed keyword arguments, and reports on the
exported `.mlpackage` file.

The embedding makes the external world explicit as an `Env`:
which imports raise, whether the model load or the export call raises,
which paths exist afterwards and their sizes.  Each Python function becomes
a Lean function from `Env` (and the pending standard-input lines) to a
`Trace` of observable events together with a result.  Python `return True`,
`return False` and an implicit `return None` are `some true`, `some false`
and `none`; an exception that escapes a function is `Except.error`.
-/

/-- A Python exception value reaching an `except` clause: either an
`ImportError` or some other `Exception`, with its message. -/
structure PyExc where
  isImportError : Bool
  msg : String
deriving DecidableEq, Repr

/-- The keyword arguments of a `model.export(...)` call. -/
structure ExportConfig where
  format : String
  imgsz : Nat
  simplify : Bool
  nms : Bool
  int8 : Bool
  half : Bool
  device : String
deriving DecidableEq, Repr

/-- Observable events of a run: console output, prompts, shell commands,
library calls and filesystem checks.  `printSize lbl b` models a `print`
of label `lbl` followed by the file size `b` (in bytes) formatted as
megabytes with one decimal; the floating-point formatting itself is
abstracted to the raw byte count. -/
inductive Event where
  | print (s : String)
  | inputPrompt (s : String)
  | systemCmd (cmd : String)
  | loadModel (weights : String)
  | exportCall (cfg : ExportConfig)
  | checkExists (path : String)
  | printSize (label : String) (bytes : Nat)
deriving DecidableEq, Repr

abbrev Trace := List Event

/-- The ambient world a run executes in.  `importInMain` is the outcome of
`import ultralytics` in `main`; `importInFunc` the outcome of
`from ultralytics import YOLO` inside the conversion functions (kept
separate, since an intervening `pip install` may change it).  `loadErr w`
and `exportErr w` are the exceptions `YOLO(w)` and the subsequent
`model.export(...)` raise, if any.  `pathExists`, `fileSize` and `absPath`
model `Path.exists()`, `Path.stat().st_size` and `Path.absolute()`. -/
structure Env where
  importInMain : Option PyExc
  importInFunc : Option PyExc
  loadErr : String → Option PyExc
  exportErr : String → Option PyExc
  pathExists : String → Bool
  fileSize : String → Nat
  absPath : String → String

/-- An ASCII apostrophe, spelled via its code point so no string literal
carries one. -/
def squote : String := Char.toString (Char.ofNat 39)

/-- Python's `str.lower()`, modelled as a character-wise map over the
string's characters.  (Core's `String.toLower` maps over UTF-8 byte
positions and does not reduce inside the kernel; this data-level map is
its specification and agrees with it.) -/
def pyLower (s : String) : String := String.mk (s.data.map Char.toLower)

deriving instance DecidableEq for Except

/-- `install_requirements()`: prints, runs `pip install`, prints. -/
def install_requirements : Trace :=
  [Event.print "Installing required packages...",
   Event.systemCmd "pip install ultralytics coremltools",
   Event.print "✅ Requirements installed successfully"]

/-- The `try` block of `download_and_convert_yolov8` (import, download and
load `yolov8n.pt`, export, check for `yolov8n.mlpackage`), before the
`except` handlers are applied. -/
def downloadBody (env : Env) : Trace × Except PyExc (Option Bool) :=
  match env.importInFunc with
  | some e => ([], Except.error e)
  | none =>
    let t1 : Trace :=
      [Event.print "🚀 Starting YOLOv8 to Core ML conversion...",
       Event.print "📥 Downloading YOLOv8n model...",
       Event.loadModel "yolov8n.pt"]
    match env.loadErr "yolov8n.pt" with
    | some e => (t1, Except.error e)
    | none =>
      let t2 : Trace := t1 ++
        [Event.print "🔄 Converting to Core ML format...",
         Event.exportCall ⟨"coreml", 640, true, true, true, true, "cpu"⟩]
      match env.exportErr "yolov8n.pt" with
      | some e => (t2, Except.error e)
      | none =>
        let t3 : Trace := t2 ++
          [Event.print "✅ YOLOv8n Core ML model created successfully!",
           Event.checkExists "yolov8n.mlpackage"]
        if env.pathExists "yolov8n.mlpackage" then
          (t3 ++
            [Event.print ("📁 Model saved as: " ++ env.absPath "yolov8n.mlpackage"),
             Event.printSize "📊 Model size: " (env.fileSize "yolov8n.mlpackage"),
             Event.print "\n📱 To add to your BatSight project:",
             Event.print "1. Drag yolov8n.mlpackage into your Xcode project",
             Event.print ("2. Make sure " ++ squote ++ "Add to target" ++ squote ++ " is checked for BatSight"),
             Event.print "3. The app will automatically use YOLOv8 when available"],
           Except.ok (some true))
        else
          (t3 ++ [Event.print "❌ Model file not found after conversion"],
           Except.ok (some false))

/-- `download_and_convert_yolov8()`: the `try` body wrapped in
`except ImportError` and `except Exception`, each printing and
returning `False`. -/
def download_and_convert_yolov8 (env : Env) : Trace × Except PyExc (Option Bool) :=
  match downloadBody env with
  | (t, Except.ok v) => (t, Except.ok v)
  | (t, Except.error e) =>
    if e.isImportError then
      (t ++ [Event.print ("❌ Import error: " ++ e.msg),
             Event.print "Please run: pip install ultralytics coremltools"],
       Except.ok (some false))
    else
      (t ++ [Event.print ("❌ Conversion error: " ++ e.msg)],
       Except.ok (some false))

/-- The hard-coded `models` dict of `convert_different_sizes`, in
insertion order. -/
def models : List (String × String) :=
  [("yolov8n", "Nano (fastest, smallest)"),
   ("yolov8s", "Small (balanced)"),
   ("yolov8m", "Medium (more accurate)"),
   ("yolov8l", "Large (very accurate)"),
   ("yolov8x", "Extra Large (most accurate)")]

/-- The `try` block of `convert_different_sizes` for the already-formed
`model_name`: import, load `model_name.pt`, export, check for
`model_name.mlpackage`.  When the package file is absent the `if` has no
`else`, so control falls off the end of the function: Python `None`. -/
def convertBody (env : Env) (model_name : String) : Trace × Except PyExc (Option Bool) :=
  match env.importInFunc with
  | some e => ([], Except.error e)
  | none =>
    let t1 : Trace :=
      [Event.print ("🔄 Converting " ++ model_name ++ "..."),
       Event.loadModel (model_name ++ ".pt")]
    match env.loadErr (model_name ++ ".pt") with
    | some e => (t1, Except.error e)
    | none =>
      let t2 : Trace := t1 ++
        [Event.exportCall ⟨"coreml", 640, true, true, true, true, "cpu"⟩]
      match env.exportErr (model_name ++ ".pt") with
      | some e => (t2, Except.error e)
      | none =>
        let t3 : Trace := t2 ++ [Event.checkExists (model_name ++ ".mlpackage")]
        if env.pathExists (model_name ++ ".mlpackage") then
          (t3 ++
            [Event.print ("✅ " ++ model_name ++ ".mlpackage created successfully!"),
             Event.printSize "📊 Size: " (env.fileSize (model_name ++ ".mlpackage"))],
           Except.ok (some true))
        else
          (t3, Except.ok none)

/-- `convert_different_sizes()`: prints the size menu, reads and lowercases
one line, and on a valid letter runs the `try` body under a single
`except Exception` handler; otherwise prints `❌ Invalid choice` and
returns `False`. -/
def convert_different_sizes (env : Env) (stdin : List String) : Trace × Except PyExc (Option Bool) :=
  let tMenu : Trace :=
    Event.print "\n📋 Available YOLOv8 model sizes:" ::
      models.map (fun p => Event.print ("  • " ++ p.1 ++ ": " ++ p.2))
  let t0 : Trace := tMenu ++
    [Event.inputPrompt "\nWhich model size would you like to convert? (n/s/m/l/x): "]
  let choice := pyLower (stdin.headD "")
  if choice ∈ (["n", "s", "m", "l", "x"] : List String) then
    let model_name := "yolov8" ++ choice
    match convertBody env model_name with
    | (t, Except.ok v) => (t0 ++ t, Except.ok v)
    | (t, Except.error e) =>
      (t0 ++ t ++ [Event.print ("❌ Error converting " ++ model_name ++ ": " ++ e.msg)],
       Except.ok (some false))
  else
    (t0 ++ [Event.print "❌ Invalid choice"], Except.ok (some false))

/-- The banner `main` prints first (title and a line of 40 `=`). -/
def mainBanner : Trace :=
  [Event.print "🦇 BatSight YOLOv8 Core ML Converter",
   Event.print (String.mk (List.replicate 40 '='))]

/-- The `try: import ultralytics / except ImportError:` step of `main`.
Only `ImportError` is caught; any other exception from the import
propagates out of `main`. -/
def importCheck (env : Env) : Trace × Except PyExc Unit :=
  match env.importInMain with
  | none => ([Event.print "✅ Ultralytics already installed"], Except.ok ())
  | some e =>
    if e.isImportError then (install_requirements, Except.ok ())
    else ([], Except.error e)

/-- The menu `main` prints before reading the choice. -/
def menuTrace : Trace :=
  [Event.print "\nWhat would you like to do?",
   Event.print "1. Convert YOLOv8n (recommended for mobile)",
   Event.print "2. Choose a different model size",
   Event.print "3. Exit",
   Event.inputPrompt "\nEnter your choice (1-3): "]

/-- The final `if success:` report of `main`.  Python truthiness: only
`True` (`some true`) counts as success; `False` and `None` do not. -/
def finalReport : Option Bool → Trace
  | some true =>
    [Event.print "\n🎉 Conversion completed successfully!",
     Event.print "Your BatSight app is ready to use YOLOv8!"]
  | _ => [Event.print "\n❌ Conversion failed. Check the error messages above."]

/-- `main()` (named `script_main` here since Lean reserves `main`): banner, dependency check, menu, one dispatch on the choice,
then (for choices 1 and 2) the result report.  Choices 3 and anything
else `return` before the report. -/
def script_main (env : Env) (stdin : List String) : Trace × Except PyExc Unit :=
  match importCheck env with
  | (ti, Except.error e) => (mainBanner ++ ti, Except.error e)
  | (ti, Except.ok ()) =>
    let t1 : Trace := mainBanner ++ ti ++ menuTrace
    let choice := stdin.headD ""
    if choice = "1" then
      match download_and_convert_yolov8 env with
      | (t, Except.error e) => (t1 ++ t, Except.error e)
      | (t, Except.ok success) => (t1 ++ t ++ finalReport success, Except.ok ())
    else if choice = "2" then
      match convert_different_sizes env stdin.tail with
      | (t, Except.error e) => (t1 ++ t, Except.error e)
      | (t, Except.ok success) => (t1 ++ t ++ finalReport success, Except.ok ())
    else if choice = "3" then
      (t1 ++ [Event.print "👋 Goodbye!"], Except.ok ())
    else
      (t1 ++ [Event.print "❌ Invalid choice"], Except.ok ())

/-- A console line that reports an error: a `print` whose first character
is `❌` (every error message of the script starts with that mark). -/
def isErrorPrint : Event → Bool
  | Event.print s => s.data.headD ' ' == '❌'
  | _ => false

/-- An `os.system` shell command event. -/
def isSystemCmd : Event → Bool
  | Event.systemCmd _ => true
  | _ => false

/-- A model-load event. -/
def isLoadModel : Event → Bool
  | Event.loadModel _ => true
  | _ => false

/-- An export-call event. -/
def isExportCall : Event → Bool
  | Event.exportCall _ => true
  | _ => false

/-- Number of export calls a trace performs. -/
def countExports (t : Trace) : Nat := t.countP isExportCall

/-- The prompt of `main`'s own menu (not the size prompt). -/
def isMainMenuPrompt : Event → Bool
  | Event.inputPrompt s => s = "\nEnter your choice (1-3): "
  | _ => false

/-! Constructor-wise evaluation of the observation predicates. -/

@[simp] theorem isErrorPrint_print (s : String) : isErrorPrint (Event.print s) = (s.data.headD ' ' == '❌') := rfl
@[simp] theorem isErrorPrint_inputPrompt (s : String) : isErrorPrint (Event.inputPrompt s) = false := rfl
@[simp] theorem isErrorPrint_systemCmd (c : String) : isErrorPrint (Event.systemCmd c) = false := rfl
@[simp] theorem isErrorPrint_loadModel (w : String) : isErrorPrint (Event.loadModel w) = false := rfl
@[simp] theorem isErrorPrint_exportCall (cfg : ExportConfig) : isErrorPrint (Event.exportCall cfg) = false := rfl
@[simp] theorem isErrorPrint_checkExists (p : String) : isErrorPrint (Event.checkExists p) = false := rfl
@[simp] theorem isErrorPrint_printSize (l : String) (b : Nat) : isErrorPrint (Event.printSize l b) = false := rfl

@[simp] theorem isSystemCmd_print (s : String) : isSystemCmd (Event.print s) = false := rfl
@[simp] theorem isSystemCmd_inputPrompt (s : String) : isSystemCmd (Event.inputPrompt s) = false := rfl
@[simp] theorem isSystemCmd_systemCmd (c : String) : isSystemCmd (Event.systemCmd c) = true := rfl
@[simp] theorem isSystemCmd_loadModel (w : String) : isSystemCmd (Event.loadModel w) = false := rfl
@[simp] theorem isSystemCmd_exportCall (cfg : ExportConfig) : isSystemCmd (Event.exportCall cfg) = false := rfl
@[simp] theorem isSystemCmd_checkExists (p : String) : isSystemCmd (Event.checkExists p) = false := rfl
@[simp] theorem isSystemCmd_printSize (l : String) (b : Nat) : isSystemCmd (Event.printSize l b) = false := rfl

@[simp] theorem isLoadModel_print (s : String) : isLoadModel (Event.print s) = false := rfl
@[simp] theorem isLoadModel_inputPrompt (s : String) : isLoadModel (Event.inputPrompt s) = false := rfl
@[simp] theorem isLoadModel_systemCmd (c : String) : isLoadModel (Event.systemCmd c) = false := rfl
@[simp] theorem isLoadModel_loadModel (w : String) : isLoadModel (Event.loadModel w) = true := rfl
@[simp] theorem isLoadModel_exportCall (cfg : ExportConfig) : isLoadModel (Event.exportCall cfg) = false := rfl
@[simp] theorem isLoadModel_checkExists (p : String) : isLoadModel (Event.checkExists p) = false := rfl
@[simp] theorem isLoadModel_printSize (l : String) (b : Nat) : isLoadModel (Event.printSize l b) = false := rfl

@[simp] theorem isExportCall_print (s : String) : isExportCall (Event.print s) = false := rfl
@[simp] theorem isExportCall_inputPrompt (s : String) : isExportCall (Event.inputPrompt s) = false := rfl
@[simp] theorem isExportCall_systemCmd (c : String) : isExportCall (Event.systemCmd c) = false := rfl
@[simp] theorem isExportCall_loadModel (w : String) : isExportCall (Event.loadModel w) = false := rfl
@[simp] theorem isExportCall_exportCall (cfg : ExportConfig) : isExportCall (Event.exportCall cfg) = true := rfl
@[simp] theorem isExportCall_checkExists (p : String) : isExportCall (Event.checkExists p) = false := rfl
@[simp] theorem isExportCall_printSize (l : String) (b : Nat) : isExportCall (Event.printSize l b) = false := rfl

@[simp] theorem isMainMenuPrompt_print (s : String) : isMainMenuPrompt (Event.print s) = false := rfl
@[simp] theorem isMainMenuPrompt_inputPrompt (s : String) : isMainMenuPrompt (Event.inputPrompt s) = decide (s = "\nEnter your choice (1-3): ") := rfl
@[simp] theorem isMainMenuPrompt_systemCmd (c : String) : isMainMenuPrompt (Event.systemCmd c) = false := rfl
@[simp] theorem isMainMenuPrompt_loadModel (w : String) : isMainMenuPrompt (Event.loadModel w) = false := rfl
@[simp] theorem isMainMenuPrompt_exportCall (cfg : ExportConfig) : isMainMenuPrompt (Event.exportCall cfg) = false := rfl
@[simp] theorem isMainMenuPrompt_checkExists (p : String) : isMainMenuPrompt (Event.checkExists p) = false := rfl
@[simp] theorem isMainMenuPrompt_printSize (l : String) (b : Nat) : isMainMenuPrompt (Event.printSize l b) = false := rfl

/-! ### Helper lemmas -/

/-- `isErrorPrint` of an appended print only depends on the (nonempty)
first part. -/
theorem isErrorPrint_print_append (pre suf : String) (h : pre.data ≠ []) :
    isErrorPrint (Event.print (pre ++ suf)) = isErrorPrint (Event.print pre) := by
  simp only [isErrorPrint, String.data_append]
  cases hp : pre.data with
  | nil => exact absurd hp h
  | cons a l => simp [hp]

/-- Whatever the environment, `download_and_convert_yolov8` returns a value:
both exception kinds are caught. -/
theorem download_result_isOk (env : Env) :
    ∃ v, (download_and_convert_yolov8 env).2 = Except.ok v := by
  rcases hb : downloadBody env with ⟨t, r⟩
  cases r with
  | ok v => exact ⟨v, by simp [download_and_convert_yolov8, hb]⟩
  | error e =>
    refine ⟨some false, ?_⟩
    by_cases hi : e.isImportError <;>
      simp [download_and_convert_yolov8, hb, hi]

/-- Whatever the environment, `convert_different_sizes` returns a value. -/
theorem convert_result_isOk (env : Env) (stdin : List String) :
    ∃ v, (convert_different_sizes env stdin).2 = Except.ok v := by
  simp only [convert_different_sizes]
  by_cases hc : (pyLower (stdin.headD "")) ∈ (["n", "s", "m", "l", "x"] : List String)
  · rw [if_pos hc]
    rcases hb : convertBody env ("yolov8" ++ pyLower (stdin.headD "")) with ⟨t, r⟩
    cases r with
    | ok v => exact ⟨v, rfl⟩
    | error e => exact ⟨some false, rfl⟩
  · rw [if_neg hc]
    exact ⟨some false, rfl⟩

/-- Appending to a string with nonempty data keeps the data nonempty. -/
theorem data_append_ne_nil (pre suf : String) (h : pre.data ≠ []) :
    (pre ++ suf).data ≠ [] := by
  rw [String.data_append]
  intro hc
  exact h (List.append_eq_nil.mp hc).1

/-- The import-error report of `download_and_convert_yolov8` is an error print. -/
theorem isErrorPrint_import_error (s : String) :
    isErrorPrint (Event.print ("❌ Import error: " ++ s)) = true := by
  rw [isErrorPrint_print_append _ _ (by decide)]; decide

/-- The conversion-error report of `download_and_convert_yolov8` is an error print. -/
theorem isErrorPrint_conversion_error (s : String) :
    isErrorPrint (Event.print ("❌ Conversion error: " ++ s)) = true := by
  rw [isErrorPrint_print_append _ _ (by decide)]; decide

/-- The handler report of `convert_different_sizes` is an error print. -/
theorem isErrorPrint_error_converting (mn s : String) :
    isErrorPrint (Event.print ("❌ Error converting " ++ mn ++ ": " ++ s)) = true := by
  rw [isErrorPrint_print_append _ _ (data_append_ne_nil _ _ (data_append_ne_nil _ _ (by decide))),
      isErrorPrint_print_append _ _ (data_append_ne_nil _ _ (by decide)),
      isErrorPrint_print_append _ _ (by decide)]
  decide

/-- The saved-path report is not an error print. -/
theorem isErrorPrint_saved_as (s : String) :
    isErrorPrint (Event.print ("📁 Model saved as: " ++ s)) = false := by
  rw [isErrorPrint_print_append _ _ (by decide)]; decide

/-- The converting-progress line is not an error print. -/
theorem isErrorPrint_converting (mn : String) :
    isErrorPrint (Event.print ("🔄 Converting " ++ mn ++ "...")) = false := by
  rw [isErrorPrint_print_append _ _ (data_append_ne_nil _ _ (by decide)),
      isErrorPrint_print_append _ _ (by decide)]
  decide

/-- The created-package report is not an error print. -/
theorem isErrorPrint_created (mn : String) :
    isErrorPrint (Event.print ("✅ " ++ mn ++ ".mlpackage created successfully!")) = false := by
  rw [isErrorPrint_print_append _ _ (data_append_ne_nil _ _ (by decide)),
      isErrorPrint_print_append _ _ (by decide)]
  decide

/-- The Xcode instruction line (with quoted text) is not an error print. -/
theorem isErrorPrint_add_target :
    isErrorPrint (Event.print ("2. Make sure " ++ squote ++ "Add to target" ++ squote ++ " is checked for BatSight")) = false := by
  decide


/-- The `try` body of `download_and_convert_yolov8` runs no shell command,
exports at most once, and never shows `main`'s menu prompt. -/
theorem downloadBody_counts (env : Env) :
    (downloadBody env).1.countP isSystemCmd = 0 ∧
    (downloadBody env).1.countP isExportCall ≤ 1 ∧
    (downloadBody env).1.countP isMainMenuPrompt = 0 := by
  rcases h1 : env.importInFunc with _ | e <;>
  rcases h2 : env.loadErr "yolov8n.pt" with _ | e2 <;>
  rcases h3 : env.exportErr "yolov8n.pt" with _ | e3 <;>
  by_cases hp : env.pathExists "yolov8n.mlpackage" <;>
  simp [downloadBody, h1, h2, h3, hp, isSystemCmd, isExportCall,
    isMainMenuPrompt, List.countP_cons, List.countP_append]

/-- `download_and_convert_yolov8` runs no shell command, exports at most
once, and never shows `main`'s menu prompt. -/
theorem download_counts (env : Env) :
    (download_and_convert_yolov8 env).1.countP isSystemCmd = 0 ∧
    (download_and_convert_yolov8 env).1.countP isExportCall ≤ 1 ∧
    (download_and_convert_yolov8 env).1.countP isMainMenuPrompt = 0 := by
  obtain ⟨hs, he, hm⟩ := downloadBody_counts env
  rcases hb : downloadBody env with ⟨t, r⟩
  replace hs : t.countP isSystemCmd = 0 := by rw [hb] at hs; exact hs
  replace he : t.countP isExportCall ≤ 1 := by rw [hb] at he; exact he
  replace hm : t.countP isMainMenuPrompt = 0 := by rw [hb] at hm; exact hm
  cases r with
  | ok v =>
    have hres : download_and_convert_yolov8 env = (t, Except.ok v) := by
      simp [download_and_convert_yolov8, hb]
    rw [hres]
    exact ⟨hs, he, hm⟩
  | error e =>
    by_cases hi : e.isImportError
    · have hres : (download_and_convert_yolov8 env).1 =
          t ++ [Event.print ("❌ Import error: " ++ e.msg),
                Event.print "Please run: pip install ultralytics coremltools"] := by
        simp [download_and_convert_yolov8, hb, hi]
      rw [hres]
      refine ⟨?_, ?_, ?_⟩ <;>
        simp [List.countP_append, List.countP_cons, -List.countP_eq_zero] <;> omega
    · have hres : (download_and_convert_yolov8 env).1 =
          t ++ [Event.print ("❌ Conversion error: " ++ e.msg)] := by
        simp [download_and_convert_yolov8, hb, hi]
      rw [hres]
      refine ⟨?_, ?_, ?_⟩ <;>
        simp [List.countP_append, List.countP_cons, -List.countP_eq_zero] <;> omega

/-- The `try` body of `convert_different_sizes` runs no shell command,
exports at most once, and never shows `main`'s menu prompt. -/
theorem convertBody_counts (env : Env) (mn : String) :
    (convertBody env mn).1.countP isSystemCmd = 0 ∧
    (convertBody env mn).1.countP isExportCall ≤ 1 ∧
    (convertBody env mn).1.countP isMainMenuPrompt = 0 := by
  rcases h1 : env.importInFunc with _ | e <;>
  rcases h2 : env.loadErr (mn ++ ".pt") with _ | e2 <;>
  rcases h3 : env.exportErr (mn ++ ".pt") with _ | e3 <;>
  by_cases hp : env.pathExists (mn ++ ".mlpackage") <;>
  simp [convertBody, h1, h2, h3, hp, isSystemCmd, isExportCall,
    isMainMenuPrompt, List.countP_cons, List.countP_append]

/-- `convert_different_sizes` runs no shell command, exports at most once,
and never shows `main`'s menu prompt. -/
theorem convert_counts (env : Env) (stdin : List String) :
    (convert_different_sizes env stdin).1.countP isSystemCmd = 0 ∧
    (convert_different_sizes env stdin).1.countP isExportCall ≤ 1 ∧
    (convert_different_sizes env stdin).1.countP isMainMenuPrompt = 0 := by
  obtain ⟨hs, he, hm⟩ := convertBody_counts env ("yolov8" ++ pyLower (stdin.headD ""))
  rcases hb : convertBody env ("yolov8" ++ pyLower (stdin.headD "")) with ⟨t, r⟩
  replace hs : t.countP isSystemCmd = 0 := by rw [hb] at hs; exact hs
  replace he : t.countP isExportCall ≤ 1 := by rw [hb] at he; exact he
  replace hm : t.countP isMainMenuPrompt = 0 := by rw [hb] at hm; exact hm
  simp only [convert_different_sizes]
  by_cases hc : (pyLower (stdin.headD "")) ∈ (["n", "s", "m", "l", "x"] : List String)
  · rw [if_pos hc, hb]
    cases r with
    | ok v =>
      refine ⟨?_, ?_, ?_⟩ <;>
        simp [models, List.countP_append, List.countP_cons, -List.countP_eq_zero] <;> omega
    | error e =>
      refine ⟨?_, ?_, ?_⟩ <;>
        simp [models, List.countP_append, List.countP_cons, -List.countP_eq_zero] <;> omega
  · rw [if_neg hc]
    refine ⟨?_, ?_, ?_⟩ <;>
      simp [models, List.countP_append, List.countP_cons]

/-- The closing report runs no shell command. -/
@[simp] theorem finalReport_countP_system (v : Option Bool) :
    (finalReport v).countP isSystemCmd = 0 := by
  rcases v with _ | b
  · simp [finalReport, List.countP_cons]
  · cases b <;> simp [finalReport, List.countP_cons]

/-- The closing report performs no export. -/
@[simp] theorem finalReport_countP_export (v : Option Bool) :
    (finalReport v).countP isExportCall = 0 := by
  rcases v with _ | b
  · simp [finalReport, List.countP_cons]
  · cases b <;> simp [finalReport, List.countP_cons]

/-- The closing report shows no menu prompt. -/
@[simp] theorem finalReport_countP_menu (v : Option Bool) :
    (finalReport v).countP isMainMenuPrompt = 0 := by
  rcases v with _ | b
  · simp [finalReport, List.countP_cons]
  · cases b <;> simp [finalReport, List.countP_cons]

/-- One full run of `main`: the `pip install` command runs exactly when the
dependency import raises `ImportError`, the export routine runs at most
once, and the menu is shown at most once. -/
theorem script_main_counts (env : Env) (stdin : List String) :
    (script_main env stdin).1.countP isSystemCmd =
      (match env.importInMain with
       | some e => if e.isImportError then 1 else 0
       | none => 0) ∧
    (script_main env stdin).1.countP isExportCall ≤ 1 ∧
    (script_main env stdin).1.countP isMainMenuPrompt ≤ 1 := by
  obtain ⟨ds, de, dm⟩ := download_counts env
  obtain ⟨cs, ce, cm⟩ := convert_counts env stdin.tail
  rcases hd : download_and_convert_yolov8 env with ⟨t1, r1⟩
  replace ds : t1.countP isSystemCmd = 0 := by rw [hd] at ds; exact ds
  replace de : t1.countP isExportCall ≤ 1 := by rw [hd] at de; exact de
  replace dm : t1.countP isMainMenuPrompt = 0 := by rw [hd] at dm; exact dm
  rcases hc : convert_different_sizes env stdin.tail with ⟨t2, r2⟩
  replace cs : t2.countP isSystemCmd = 0 := by rw [hc] at cs; exact cs
  replace ce : t2.countP isExportCall ≤ 1 := by rw [hc] at ce; exact ce
  replace cm : t2.countP isMainMenuPrompt = 0 := by rw [hc] at cm; exact cm
  rcases him : env.importInMain with _ | e
  · by_cases h1 : stdin.head?.getD "" = "1" <;>
    by_cases h2 : stdin.head?.getD "" = "2" <;>
    by_cases h3 : stdin.head?.getD "" = "3" <;>
    cases r1 <;> cases r2 <;>
    refine ⟨?_, ?_, ?_⟩ <;>
    simp [script_main, importCheck, him, h1, h2, h3, hd, hc, mainBanner, menuTrace,
      install_requirements, List.countP_append, List.countP_cons, -List.countP_eq_zero] <;>
    omega
  · by_cases hi : e.isImportError <;>
    by_cases h1 : stdin.head?.getD "" = "1" <;>
    by_cases h2 : stdin.head?.getD "" = "2" <;>
    by_cases h3 : stdin.head?.getD "" = "3" <;>
    cases r1 <;> cases r2 <;>
    refine ⟨?_, ?_, ?_⟩ <;>
    simp [script_main, importCheck, him, hi, h1, h2, h3, hd, hc, mainBanner, menuTrace,
      install_requirements, List.countP_append, List.countP_cons, -List.countP_eq_zero] <;>
    omega

/-- The head character of an appended string is that of its (nonempty)
first part. -/
@[simp] theorem headD_data_append (pre suf : String) (h : pre.data ≠ []) :
    (pre ++ suf).data.headD ' ' = pre.data.headD ' ' := by
  rw [String.data_append]
  cases hp : pre.data with
  | nil => exact absurd hp h
  | cons a l => simp [hp]

/-- Run report of `download_and_convert_yolov8`: either `True` with no
error print, or `False` with at least one error print. -/
theorem download_report_cases (env : Env) :
    ((download_and_convert_yolov8 env).2 = Except.ok (some true) ∧
      (download_and_convert_yolov8 env).1.countP isErrorPrint = 0) ∨
    ((download_and_convert_yolov8 env).2 = Except.ok (some false) ∧
      0 < (download_and_convert_yolov8 env).1.countP isErrorPrint) := by
  rcases h1 : env.importInFunc with _ | e
  · rcases h2 : env.loadErr "yolov8n.pt" with _ | e2
    · rcases h3 : env.exportErr "yolov8n.pt" with _ | e3
      · by_cases hp : env.pathExists "yolov8n.mlpackage"
        · left
          refine ⟨?_, ?_⟩ <;>
            simp [download_and_convert_yolov8, downloadBody, h1, h2, h3, hp, squote,
              List.countP_append, List.countP_cons, -List.countP_eq_zero]
        · right
          refine ⟨?_, ?_⟩ <;>
            simp [download_and_convert_yolov8, downloadBody, h1, h2, h3, hp,
              List.countP_append, List.countP_cons, -List.countP_eq_zero]
      · right
        by_cases hi : e3.isImportError <;>
          refine ⟨?_, ?_⟩ <;>
          simp [download_and_convert_yolov8, downloadBody, h1, h2, h3, hi,
            List.countP_append, List.countP_cons, -List.countP_eq_zero]
    · right
      by_cases hi : e2.isImportError <;>
        refine ⟨?_, ?_⟩ <;>
        simp [download_and_convert_yolov8, downloadBody, h1, h2, hi,
          List.countP_append, List.countP_cons, -List.countP_eq_zero]
  · right
    by_cases hi : e.isImportError <;>
      refine ⟨?_, ?_⟩ <;>
      simp [download_and_convert_yolov8, downloadBody, h1, hi,
        List.countP_append, List.countP_cons, -List.countP_eq_zero]

/-- Run report of `convert_different_sizes`: `False` with an error print,
`True` with no error print, or the silent fall-through `None` (valid
choice, no exception, package file absent) with no error print. -/
theorem convert_report_cases (env : Env) (stdin : List String) :
    ((convert_different_sizes env stdin).2 = Except.ok (some false) ∧
      0 < (convert_different_sizes env stdin).1.countP isErrorPrint) ∨
    ((convert_different_sizes env stdin).2 = Except.ok (some true) ∧
      (convert_different_sizes env stdin).1.countP isErrorPrint = 0) ∨
    ((convert_different_sizes env stdin).2 = Except.ok none ∧
      (convert_different_sizes env stdin).1.countP isErrorPrint = 0 ∧
      pyLower (stdin.headD "") ∈ (["n", "s", "m", "l", "x"] : List String) ∧
      env.importInFunc = none ∧
      env.loadErr ("yolov8" ++ pyLower (stdin.headD "") ++ ".pt") = none ∧
      env.exportErr ("yolov8" ++ pyLower (stdin.headD "") ++ ".pt") = none ∧
      env.pathExists ("yolov8" ++ pyLower (stdin.headD "") ++ ".mlpackage") = false) := by
  simp only [convert_different_sizes]
  generalize pyLower (stdin.headD "") = c
  by_cases hc : c ∈ (["n", "s", "m", "l", "x"] : List String)
  case neg =>
    left
    refine ⟨?_, ?_⟩ <;>
      simp [hc, models, List.countP_append, List.countP_cons, -List.countP_eq_zero]
  case pos =>
    rcases h1 : env.importInFunc with _ | e
    · rcases h2 : env.loadErr ("yolov8" ++ c ++ ".pt") with _ | e2
      · rcases h3 : env.exportErr ("yolov8" ++ c ++ ".pt") with _ | e3
        · by_cases hp : env.pathExists ("yolov8" ++ c ++ ".mlpackage")
          · right; left
            refine ⟨?_, ?_⟩ <;>
              simp [hc, convertBody, h1, h2, h3, hp, models,
                List.countP_append, List.countP_cons, -List.countP_eq_zero]
          · right; right
            refine ⟨?_, ?_, hc, rfl, rfl, rfl, ?_⟩ <;>
              simp [hc, convertBody, h1, h2, h3, hp, models,
                List.countP_append, List.countP_cons, -List.countP_eq_zero]
        · left
          refine ⟨?_, ?_⟩ <;>
            simp [hc, convertBody, h1, h2, h3, models,
              List.countP_append, List.countP_cons, -List.countP_eq_zero]
      · left
        refine ⟨?_, ?_⟩ <;>
          simp [hc, convertBody, h1, h2, models,
            List.countP_append, List.countP_cons, -List.countP_eq_zero]
    · left
      refine ⟨?_, ?_⟩ <;>
        simp [hc, convertBody, h1, models,
          List.countP_append, List.countP_cons, -List.countP_eq_zero]

/-! ### Claims -/

/-- C1 counterexample: in an environment where the import, load and export
all succeed but the exported package file is absent, `convert_different_sizes`
on choice `n` returns `None` (not `False`) and prints no error message, so
not every failure path prints an error and returns `False`. -/
theorem c1_counterexample :
    (convert_different_sizes ⟨none, none, fun _ => none, fun _ => none,
        fun _ => false, fun _ => 0, fun p => p⟩ ["n"]).2 = Except.ok none ∧
    (convert_different_sizes ⟨none, none, fun _ => none, fun _ => none,
        fun _ => false, fun _ => 0, fun p => p⟩ ["n"]).1.countP isErrorPrint = 0 ∧
    (convert_different_sizes ⟨none, none, fun _ => none, fun _ => none,
        fun _ => false, fun _ => 0, fun p => p⟩ ["n"]).2 ≠ Except.ok (some false) := by
  refine ⟨?_, ?_, ?_⟩ <;> decide

/-- C1 (amended): `download_and_convert_yolov8` reports every failure with a
`❌` console message and returns `False` (otherwise it returns `True`);
`convert_different_sizes` does so for exceptions and invalid choices, but
when the export completes and the package file is absent it returns `None`
with no error message. -/
theorem conversion_failure_reporting (env : Env) (stdin : List String) :
    ((download_and_convert_yolov8 env).2 = Except.ok (some true) ∨
      ((download_and_convert_yolov8 env).2 = Except.ok (some false) ∧
        0 < (download_and_convert_yolov8 env).1.countP isErrorPrint)) ∧
    ((convert_different_sizes env stdin).2 = Except.ok (some false) →
      0 < (convert_different_sizes env stdin).1.countP isErrorPrint) ∧
    ((convert_different_sizes env stdin).2 = Except.ok none →
      (convert_different_sizes env stdin).1.countP isErrorPrint = 0 ∧
      env.pathExists ("yolov8" ++ pyLower (stdin.headD "") ++ ".mlpackage") = false) := by
  refine ⟨?_, ?_, ?_⟩
  · rcases download_report_cases env with ⟨ha, hb⟩ | ⟨ha, hb⟩
    · exact Or.inl ha
    · exact Or.inr ⟨ha, hb⟩
  · intro hres
    rcases convert_report_cases env stdin with ⟨_, hb⟩ | ⟨ha, _⟩ | ⟨ha, _⟩
    · exact hb
    · rw [hres] at ha; simp at ha
    · rw [hres] at ha; simp at ha
  · intro hres
    rcases convert_report_cases env stdin with ⟨ha, _⟩ | ⟨ha, _⟩ | ⟨_, hb, _, _, _, _, hp⟩
    · rw [hres] at ha; simp at ha
    · rw [hres] at ha; simp at ha
    · exact ⟨hb, hp⟩

/-- C1 witness: a run of `convert_different_sizes` that reaches the silent
`None` fall-through, with no error print and the package reported absent. -/
theorem conversion_failure_reporting_witness :
    (convert_different_sizes ⟨none, none, fun _ => none, fun _ => none,
        fun _ => false, fun _ => 42, fun p => p⟩ ["x"]).1.countP isErrorPrint = 0 ∧
    (⟨none, none, fun _ => none, fun _ => none,
        fun _ => false, fun _ => 42, fun p => p⟩ : Env).pathExists
      ("yolov8" ++ pyLower ((["x"] : List String).headD "") ++ ".mlpackage") = false :=
  (conversion_failure_reporting ⟨none, none, fun _ => none, fun _ => none,
      fun _ => false, fun _ => 42, fun p => p⟩ ["x"]).2.2 rfl

/-- C2: with the dependency already installed, `main` on menu choice `3`
prints exactly the banner, the installed notice, the menu and the goodbye
message, returns normally, and performs no model load, no export and no
shell command. -/
theorem menu_choice_three_exits (env : Env) (h : env.importInMain = none) :
    script_main env ["3"] =
      (mainBanner ++ [Event.print "✅ Ultralytics already installed"] ++ menuTrace ++
        [Event.print "👋 Goodbye!"], Except.ok ()) ∧
    (script_main env ["3"]).1.countP isExportCall = 0 ∧
    (script_main env ["3"]).1.countP isLoadModel = 0 ∧
    (script_main env ["3"]).1.countP isSystemCmd = 0 := by
  have heq : script_main env ["3"] =
      (mainBanner ++ [Event.print "✅ Ultralytics already installed"] ++ menuTrace ++
        [Event.print "👋 Goodbye!"], Except.ok ()) := by
    simp [script_main, importCheck, h, mainBanner, menuTrace]
  refine ⟨heq, ?_, ?_, ?_⟩ <;> rw [heq] <;> decide

/-- C2 witness: the property evaluated in a concrete environment with the
dependency present. -/
theorem menu_choice_three_exits_witness :
    (script_main ⟨none, none, fun _ => none, fun _ => none,
        fun _ => true, fun _ => 0, fun p => p⟩ ["3"]).2 = Except.ok () ∧
    (script_main ⟨none, none, fun _ => none, fun _ => none,
        fun _ => true, fun _ => 0, fun p => p⟩ ["3"]).1.countP isExportCall = 0 :=
  ⟨by rw [(menu_choice_three_exits ⟨none, none, fun _ => none, fun _ => none,
      fun _ => true, fun _ => 0, fun p => p⟩ rfl).1],
   (menu_choice_three_exits ⟨none, none, fun _ => none, fun _ => none,
      fun _ => true, fun _ => 0, fun p => p⟩ rfl).2.1⟩

/-- Every export call in a trace passes the fixed keyword configuration. -/
def onlyStdExports (t : Trace) : Prop :=
  ∀ cfg : ExportConfig, Event.exportCall cfg ∈ t →
    cfg = ⟨"coreml", 640, true, true, true, true, "cpu"⟩

/-- `onlyStdExports` is preserved by concatenation. -/
theorem onlyStdExports_append (t u : Trace)
    (ht : onlyStdExports t) (hu : onlyStdExports u) : onlyStdExports (t ++ u) := by
  intro cfg hmem
  rcases List.mem_append.mp hmem with h | h
  · exact ht cfg h
  · exact hu cfg h

/-- The `try` body of `download_and_convert_yolov8` only performs the
fixed-configuration export. -/
theorem downloadBody_onlyStd (env : Env) : onlyStdExports (downloadBody env).1 := by
  rcases h1 : env.importInFunc with _ | e <;>
  rcases h2 : env.loadErr "yolov8n.pt" with _ | e2 <;>
  rcases h3 : env.exportErr "yolov8n.pt" with _ | e3 <;>
  by_cases hp : env.pathExists "yolov8n.mlpackage" <;>
  simp [onlyStdExports, downloadBody, h1, h2, h3, hp]

/-- `download_and_convert_yolov8` only performs the fixed-configuration
export. -/
theorem download_onlyStd (env : Env) :
    onlyStdExports (download_and_convert_yolov8 env).1 := by
  have hbody := downloadBody_onlyStd env
  rcases hb : downloadBody env with ⟨t, r⟩
  replace hbody : onlyStdExports t := by rw [hb] at hbody; exact hbody
  cases r with
  | ok v =>
    have hres : download_and_convert_yolov8 env = (t, Except.ok v) := by
      simp [download_and_convert_yolov8, hb]
    rw [hres]
    exact hbody
  | error e =>
    by_cases hi : e.isImportError
    · have hres : (download_and_convert_yolov8 env).1 =
          t ++ [Event.print ("❌ Import error: " ++ e.msg),
                Event.print "Please run: pip install ultralytics coremltools"] := by
        simp [download_and_convert_yolov8, hb, hi]
      rw [hres]
      exact onlyStdExports_append _ _ hbody (by intro cfg h; simp at h)
    · have hres : (download_and_convert_yolov8 env).1 =
          t ++ [Event.print ("❌ Conversion error: " ++ e.msg)] := by
        simp [download_and_convert_yolov8, hb, hi]
      rw [hres]
      exact onlyStdExports_append _ _ hbody (by intro cfg h; simp at h)

/-- The `try` body of `convert_different_sizes` only performs the
fixed-configuration export. -/
theorem convertBody_onlyStd (env : Env) (mn : String) :
    onlyStdExports (convertBody env mn).1 := by
  rcases h1 : env.importInFunc with _ | e <;>
  rcases h2 : env.loadErr (mn ++ ".pt") with _ | e2 <;>
  rcases h3 : env.exportErr (mn ++ ".pt") with _ | e3 <;>
  by_cases hp : env.pathExists (mn ++ ".mlpackage") <;>
  simp [onlyStdExports, convertBody, h1, h2, h3, hp]

/-- `convert_different_sizes` only performs the fixed-configuration
export. -/
theorem convert_onlyStd (env : Env) (stdin : List String) :
    onlyStdExports (convert_different_sizes env stdin).1 := by
  have hbody := convertBody_onlyStd env ("yolov8" ++ pyLower (stdin.headD ""))
  rcases hb : convertBody env ("yolov8" ++ pyLower (stdin.headD "")) with ⟨t, r⟩
  replace hbody : onlyStdExports t := by rw [hb] at hbody; exact hbody
  simp only [convert_different_sizes]
  by_cases hc : (pyLower (stdin.headD "")) ∈ (["n", "s", "m", "l", "x"] : List String)
  · rw [if_pos hc, hb]
    cases r with
    | ok v =>
      exact onlyStdExports_append _ _ (by intro cfg h; simp [models] at h) hbody
    | error e =>
      refine onlyStdExports_append _ _ ?_ (by intro cfg h; simp at h)
      exact onlyStdExports_append _ _ (by intro cfg h; simp [models] at h) hbody
  · rw [if_neg hc]
    intro cfg h
    simp [models] at h

/-- C3: every export invocation, in both conversion functions, passes the
fixed keyword configuration format=coreml, imgsz=640, simplify, nms, int8,
half, device=cpu; no user input changes it. -/
theorem export_config_fixed (env : Env) (stdin : List String) (cfg : ExportConfig)
    (h : Event.exportCall cfg ∈ (download_and_convert_yolov8 env).1 ∨
         Event.exportCall cfg ∈ (convert_different_sizes env stdin).1) :
    cfg = ⟨"coreml", 640, true, true, true, true, "cpu"⟩ := by
  rcases h with h | h
  · exact download_onlyStd env cfg h
  · exact convert_onlyStd env stdin cfg h

/-- C3 witness: a concrete run whose trace contains the export event, at
which the theorem is applied. -/
theorem export_config_fixed_witness :
    (Event.exportCall ⟨"coreml", 640, true, true, true, true, "cpu"⟩ ∈
      (download_and_convert_yolov8 ⟨none, none, fun _ => none, fun _ => none,
        fun _ => true, fun _ => 0, fun p => p⟩).1) ∧
    (⟨"coreml", 640, true, true, true, true, "cpu"⟩ : ExportConfig) =
      ⟨"coreml", 640, true, true, true, true, "cpu"⟩ :=
  ⟨by decide,
   export_config_fixed ⟨none, none, fun _ => none, fun _ => none,
      fun _ => true, fun _ => 0, fun p => p⟩ [] ⟨"coreml", 640, true, true, true, true, "cpu"⟩
     (Or.inl (by decide))⟩

/-- C4: when the import, load and export of `download_and_convert_yolov8`
all complete, the function returns `True` exactly when `yolov8n.mlpackage`
exists; if it exists the trace reports the absolute path and the size, and
if not it prints the not-found message and the result is `False`. -/
theorem download_postcheck (env : Env)
    (h1 : env.importInFunc = none)
    (h2 : env.loadErr "yolov8n.pt" = none)
    (h3 : env.exportErr "yolov8n.pt" = none) :
    download_and_convert_yolov8 env =
      ([Event.print "🚀 Starting YOLOv8 to Core ML conversion...",
        Event.print "📥 Downloading YOLOv8n model...",
        Event.loadModel "yolov8n.pt",
        Event.print "🔄 Converting to Core ML format...",
        Event.exportCall ⟨"coreml", 640, true, true, true, true, "cpu"⟩,
        Event.print "✅ YOLOv8n Core ML model created successfully!",
        Event.checkExists "yolov8n.mlpackage"] ++
       (if env.pathExists "yolov8n.mlpackage" then
          [Event.print ("📁 Model saved as: " ++ env.absPath "yolov8n.mlpackage"),
           Event.printSize "📊 Model size: " (env.fileSize "yolov8n.mlpackage"),
           Event.print "\n📱 To add to your BatSight project:",
           Event.print "1. Drag yolov8n.mlpackage into your Xcode project",
           Event.print ("2. Make sure " ++ squote ++ "Add to target" ++ squote ++ " is checked for BatSight"),
           Event.print "3. The app will automatically use YOLOv8 when available"]
        else [Event.print "❌ Model file not found after conversion"]),
       Except.ok (some (env.pathExists "yolov8n.mlpackage"))) := by
  by_cases hp : env.pathExists "yolov8n.mlpackage" <;>
    simp [download_and_convert_yolov8, downloadBody, h1, h2, h3, hp]

/-- C4 witness: in an environment where the package file exists, the
function returns `True`. -/
theorem download_postcheck_witness :
    (download_and_convert_yolov8 ⟨none, none, fun _ => none, fun _ => none,
        fun _ => true, fun _ => 7340032, fun p => "/work/" ++ p⟩).2 =
      Except.ok (some true) := by
  rw [download_postcheck ⟨none, none, fun _ => none, fun _ => none,
      fun _ => true, fun _ => 7340032, fun p => "/work/" ++ p⟩ rfl rfl rfl]

/-- C5: the size table is exactly the five hard-coded entries, and any
prompt response whose lowercase form is not one of n, s, m, l, x makes
`convert_different_sizes` print the invalid-choice message and return
`False` without loading or exporting any model. -/
theorem invalid_size_choice (env : Env) (stdin : List String)
    (h : pyLower (stdin.headD "") ∉ (["n", "s", "m", "l", "x"] : List String)) :
    models = [("yolov8n", "Nano (fastest, smallest)"),
              ("yolov8s", "Small (balanced)"),
              ("yolov8m", "Medium (more accurate)"),
              ("yolov8l", "Large (very accurate)"),
              ("yolov8x", "Extra Large (most accurate)")] ∧
    convert_different_sizes env stdin =
      (Event.print "\n📋 Available YOLOv8 model sizes:" ::
         models.map (fun p => Event.print ("  • " ++ p.1 ++ ": " ++ p.2)) ++
         [Event.inputPrompt "\nWhich model size would you like to convert? (n/s/m/l/x): ",
          Event.print "❌ Invalid choice"],
       Except.ok (some false)) ∧
    (convert_different_sizes env stdin).1.countP isLoadModel = 0 ∧
    (convert_different_sizes env stdin).1.countP isExportCall = 0 := by
  refine ⟨rfl, ?_, ?_, ?_⟩ <;>
    (simp only [convert_different_sizes]; rw [if_neg h]) <;> rfl

/-- C5 witness: response `q` is rejected; no export happens. -/
theorem invalid_size_choice_witness :
    pyLower ((["q"] : List String).headD "") ∉ (["n", "s", "m", "l", "x"] : List String) ∧
    (convert_different_sizes ⟨none, none, fun _ => none, fun _ => none,
        fun _ => false, fun _ => 0, fun p => p⟩ ["q"]).1.countP isExportCall = 0 :=
  ⟨by decide,
   (invalid_size_choice ⟨none, none, fun _ => none, fun _ => none,
      fun _ => false, fun _ => 0, fun p => p⟩ ["q"] (by decide)).2.2.2⟩

/-- When the dependency check does not crash, `main`'s trace is the banner,
the dependency-check output, the menu, and the dispatched remainder. -/
theorem script_main_trace_split (env : Env) (stdin : List String)
    (hok : (importCheck env).2 = Except.ok ()) :
    ∃ rest, (script_main env stdin).1 =
      mainBanner ++ (importCheck env).1 ++ menuTrace ++ rest := by
  rcases hic : importCheck env with ⟨ti, ri⟩
  replace hok : ri = Except.ok () := by rw [hic] at hok; exact hok
  subst hok
  by_cases h1 : stdin.head?.getD "" = "1"
  · rcases hd : download_and_convert_yolov8 env with ⟨t, r⟩
    cases r with
    | ok v =>
      exact ⟨t ++ finalReport v, by simp [script_main, hic, h1, hd, mainBanner, menuTrace]⟩
    | error e =>
      exact ⟨t, by simp [script_main, hic, h1, hd, mainBanner, menuTrace]⟩
  · by_cases h2 : stdin.head?.getD "" = "2"
    · rcases hc : convert_different_sizes env stdin.tail with ⟨t, r⟩
      cases r with
      | ok v =>
        exact ⟨t ++ finalReport v, by simp [script_main, hic, h1, h2, hc, mainBanner, menuTrace]⟩
      | error e =>
        exact ⟨t, by simp [script_main, hic, h1, h2, hc, mainBanner, menuTrace]⟩
    · by_cases h3 : stdin.head?.getD "" = "3"
      · exact ⟨[Event.print "👋 Goodbye!"],
          by simp [script_main, hic, h1, h2, h3, mainBanner, menuTrace]⟩
      · exact ⟨[Event.print "❌ Invalid choice"],
          by simp [script_main, hic, h1, h2, h3, mainBanner, menuTrace]⟩

/-- C6: `main` runs `install_requirements` exactly when importing the
dependency raises `ImportError` (one `pip install` command, which then
appears in the trace); when the import succeeds it prints the
already-installed notice and runs no shell command. -/
theorem install_requirements_conditional (env : Env) (stdin : List String) :
    (script_main env stdin).1.countP isSystemCmd =
      (match env.importInMain with
       | some e => if e.isImportError then 1 else 0
       | none => 0) ∧
    (env.importInMain = none →
      Event.print "✅ Ultralytics already installed" ∈ (script_main env stdin).1 ∧
      (script_main env stdin).1.countP isSystemCmd = 0) ∧
    (∀ e, env.importInMain = some e → e.isImportError = true →
      Event.systemCmd "pip install ultralytics coremltools" ∈ (script_main env stdin).1) := by
  obtain ⟨c1, -, -⟩ := script_main_counts env stdin
  refine ⟨c1, ?_, ?_⟩
  · intro h
    have hok : (importCheck env).2 = Except.ok () := by simp [importCheck, h]
    obtain ⟨rest, hsplit⟩ := script_main_trace_split env stdin hok
    have hti : (importCheck env).1 = [Event.print "✅ Ultralytics already installed"] := by
      simp [importCheck, h]
    constructor
    · rw [hsplit, hti]
      simp [mainBanner, menuTrace]
    · rw [c1, h]
  · intro e he hi
    have hok : (importCheck env).2 = Except.ok () := by simp [importCheck, he, hi]
    obtain ⟨rest, hsplit⟩ := script_main_trace_split env stdin hok
    have hti : (importCheck env).1 = install_requirements := by
      simp [importCheck, he, hi]
    rw [hsplit, hti]
    simp [mainBanner, menuTrace, install_requirements]

/-- C6 witness: dependency present, so the notice is printed and no shell
command runs. -/
theorem install_requirements_conditional_witness :
    Event.print "✅ Ultralytics already installed" ∈
      (script_main ⟨none, none, fun _ => none, fun _ => none,
        fun _ => false, fun _ => 0, fun p => p⟩ ["3"]).1 ∧
    (script_main ⟨none, none, fun _ => none, fun _ => none,
        fun _ => false, fun _ => 0, fun p => p⟩ ["3"]).1.countP isSystemCmd = 0 :=
  (install_requirements_conditional ⟨none, none, fun _ => none, fun _ => none,
      fun _ => false, fun _ => 0, fun p => p⟩ ["3"]).2.1 rfl

/-- C7: in every run of `main` the export routine is invoked at most once
and the menu prompt is shown at most once: no retry, no looping back. -/
theorem export_at_most_once (env : Env) (stdin : List String) :
    (script_main env stdin).1.countP isExportCall ≤ 1 ∧
    (script_main env stdin).1.countP isMainMenuPrompt ≤ 1 := by
  obtain ⟨-, h2, h3⟩ := script_main_counts env stdin
  exact ⟨h2, h3⟩

/-- C8: the prompt response is lowercased before validation, so an input
whose lowercase form is an accepted letter behaves exactly like that
lowercase input. -/
theorem size_choice_case_insensitive (env : Env) (s : String) (rest : List String)
    (h : pyLower s ∈ (["n", "s", "m", "l", "x"] : List String)) :
    convert_different_sizes env (s :: rest) =
      convert_different_sizes env (pyLower s :: rest) := by
  have hlow : pyLower (pyLower s) = pyLower s := by
    simp only [List.mem_cons, List.not_mem_nil, or_false] at h
    rcases h with h | h | h | h | h <;> rw [h] <;> decide
  simp only [convert_different_sizes, List.headD_cons, hlow]

/-- C8 witness: the uppercase response `N` converts like `n`. -/
theorem size_choice_case_insensitive_witness :
    pyLower "N" ∈ (["n", "s", "m", "l", "x"] : List String) ∧
    convert_different_sizes ⟨none, none, fun _ => none, fun _ => none,
        fun _ => true, fun _ => 0, fun p => p⟩ ["N"] =
      convert_different_sizes ⟨none, none, fun _ => none, fun _ => none,
        fun _ => true, fun _ => 0, fun p => p⟩ [pyLower "N"] :=
  ⟨by decide,
   size_choice_case_insensitive ⟨none, none, fun _ => none, fun _ => none,
      fun _ => true, fun _ => 0, fun p => p⟩ "N" [] (by decide)⟩

/-- C9: `download_and_convert_yolov8` never propagates an exception: it
always returns a value, and whenever its `try` body raises it returns
`False`. -/
theorem download_never_raises (env : Env) :
    (∃ v, (download_and_convert_yolov8 env).2 = Except.ok v) ∧
    (∀ e, (downloadBody env).2 = Except.error e →
      (download_and_convert_yolov8 env).2 = Except.ok (some false)) := by
  refine ⟨download_result_isOk env, ?_⟩
  intro e he
  rcases hb : downloadBody env with ⟨t, r⟩
  replace he : r = Except.error e := by rw [hb] at he; exact he
  subst he
  by_cases hi : e.isImportError <;> simp [download_and_convert_yolov8, hb, hi]

/-- C9 witness: with the dependency import raising, the body raises but the
function still returns `False`. -/
theorem download_never_raises_witness :
    (downloadBody ⟨none, some ⟨true, "No module named ultralytics"⟩, fun _ => none,
        fun _ => none, fun _ => false, fun _ => 0, fun p => p⟩).2 =
      Except.error ⟨true, "No module named ultralytics"⟩ ∧
    (download_and_convert_yolov8 ⟨none, some ⟨true, "No module named ultralytics"⟩,
        fun _ => none, fun _ => none, fun _ => false, fun _ => 0, fun p => p⟩).2 =
      Except.ok (some false) :=
  ⟨by decide,
   (download_never_raises ⟨none, some ⟨true, "No module named ultralytics"⟩,
      fun _ => none, fun _ => none, fun _ => false, fun _ => 0, fun p => p⟩).2
     ⟨true, "No module named ultralytics"⟩ (by decide)⟩

/-- C10: for an accepted size letter, the weights loaded, the package path
checked, and the size reported all derive from the same model name
`yolov8` plus that letter. -/
theorem selected_size_paths_consistent (env : Env) (stdin : List String) (c : String)
    (hc : pyLower (stdin.headD "") = c)
    (h : c ∈ (["n", "s", "m", "l", "x"] : List String)) :
    (∀ w, Event.loadModel w ∈ (convert_different_sizes env stdin).1 →
      w = "yolov8" ++ c ++ ".pt") ∧
    (∀ p, Event.checkExists p ∈ (convert_different_sizes env stdin).1 →
      p = "yolov8" ++ c ++ ".mlpackage") ∧
    (∀ lbl b, Event.printSize lbl b ∈ (convert_different_sizes env stdin).1 →
      b = env.fileSize ("yolov8" ++ c ++ ".mlpackage")) := by
  simp only [convert_different_sizes]
  rw [hc, if_pos h]
  rcases h1 : env.importInFunc with _ | e
  · rcases h2 : env.loadErr ("yolov8" ++ c ++ ".pt") with _ | e2
    · rcases h3 : env.exportErr ("yolov8" ++ c ++ ".pt") with _ | e3
      · by_cases hp : env.pathExists ("yolov8" ++ c ++ ".mlpackage") <;>
          refine ⟨?_, ?_, ?_⟩ <;>
          simp [convertBody, h1, h2, h3, hp, models]
      · refine ⟨?_, ?_, ?_⟩ <;> simp [convertBody, h1, h2, h3, models]
    · refine ⟨?_, ?_, ?_⟩ <;> simp [convertBody, h1, h2, models]
  · refine ⟨?_, ?_, ?_⟩ <;> simp [convertBody, h1, models]

/-- C10 witness: response `M` loads `yolov8m.pt` and reports on
`yolov8m.mlpackage`. -/
theorem selected_size_paths_consistent_witness :
    pyLower ((["M"] : List String).headD "") = "m" ∧
    ("m" : String) ∈ (["n", "s", "m", "l", "x"] : List String) ∧
    "yolov8m.pt" = "yolov8" ++ "m" ++ ".pt" :=
  ⟨by decide, by decide,
   (selected_size_paths_consistent ⟨none, none, fun _ => none, fun _ => none,
       fun _ => true, fun _ => 0, fun p => p⟩ ["M"] "m" (by decide) (by decide)).1
     "yolov8m.pt" (by decide)⟩
